import Mathlib

/-!
Shallow embedding of the customer segmentation engine
(src/app/segmentation_engine.py) and proofs about it.

Modelling choices:
* Python datetimes are modelled as integer timestamps in seconds since an
  epoch; the whole-day difference computed by timedelta.days is floor
  division by 86400 (Int.fdiv, matching Python floor semantics).
* Python float arithmetic is modelled over the rationals; every constant
  in the source (40, 365, 3, 0.03, the thresholds) is exactly the rational
  written in the code, and all claim-relevant values are far from any
  float-rounding boundary.
* Python int() truncation toward zero is modelled by pyInt.
* The ValueError raised by the engine is modelled by the Except monad.
-/

deriving instance DecidableEq for Except

namespace SegmentationEngine

/-- The four customer tiers of the CustomerTier enum. -/
inductive CustomerTier where
  | bronze
  | silver
  | gold
  | platinum
deriving DecidableEq, Repr

/-- The CustomerActivity dataclass. The last purchase date is an integer
timestamp in seconds. -/
structure CustomerActivity where
  last_purchase_date : ℤ
  total_orders_12m : ℤ
  total_spend_12m : ℚ
  account_age_days : ℤ
deriving DecidableEq, Repr

/-- The SegmentationEngine object: it holds only the reference date fixed at
construction (an integer timestamp in seconds). -/
structure Engine where
  reference_date : ℤ
deriving DecidableEq, Repr

/-- Python int() applied to a float: truncation toward zero. -/
def pyInt (q : ℚ) : ℤ := if 0 ≤ q then ⌊q⌋ else ⌈q⌉

/-- The whole-day difference (reference_date - last_purchase_date).days of
Python: floor division of the elapsed seconds by 86400. -/
def daysSince (reference_date last_purchase_date : ℤ) : ℤ :=
  (reference_date - last_purchase_date).fdiv 86400

/-- The static method _recency_score: max(0, 40 - days * 40 / 365). -/
def recency_score (days_since_purchase : ℤ) : ℚ :=
  max 0 (40 - (days_since_purchase : ℚ) * 40 / 365)

/-- The static method _frequency_score: min(30, min(100, orders) * 3), an
all-integer computation in the source. -/
def frequency_score (total_orders_12m : ℤ) : ℚ :=
  ((min 30 (min 100 total_orders_12m * 3) : ℤ) : ℚ)

/-- The static method _monetary_score: max(0, min(30, spend * 0.03)). -/
def monetary_score (total_spend_12m : ℚ) : ℚ :=
  max 0 (min 30 (total_spend_12m * (3 / 100)))

/-- The static method _map_score_to_tier with its threshold chain. -/
def map_score_to_tier (score : ℚ) : CustomerTier :=
  if 85 ≤ score then CustomerTier.platinum
  else if 70 ≤ score then CustomerTier.gold
  else if 50 ≤ score then CustomerTier.silver
  else CustomerTier.bronze

/-- The int() of the sum of the three sub-scores, as computed inside
calculate_tier. -/
def total_score (days_since total_orders_12m : ℤ) (total_spend_12m : ℚ) : ℤ :=
  pyInt (recency_score days_since + frequency_score total_orders_12m +
    monetary_score total_spend_12m)

/-- The method _apply_constraints: date validation (raising ValueError) and
the new-account cap. -/
def apply_constraints (e : Engine) (customer : CustomerActivity)
    (current_tier : CustomerTier) : Except String CustomerTier :=
  if e.reference_date < customer.last_purchase_date then
    Except.error "Reference date must be after last purchase date"
  else if customer.account_age_days < 30 ∧ current_tier ≠ CustomerTier.bronze then
    Except.ok CustomerTier.silver
  else
    Except.ok current_tier

/-- The tier mapped from the raw RFM score, before constraints are applied. -/
def raw_tier (e : Engine) (customer : CustomerActivity) : CustomerTier :=
  map_score_to_tier
    ((total_score (daysSince e.reference_date customer.last_purchase_date)
      customer.total_orders_12m customer.total_spend_12m : ℤ) : ℚ)

/-- The method calculate_tier: score, map, then constrain. -/
def calculate_tier (e : Engine) (customer : CustomerActivity) :
    Except String CustomerTier :=
  apply_constraints e customer (raw_tier e customer)

/-- The tier computation as worded by the specification, steps 2 to 7 of
section 4.1: three sub-scores from days_since, orders and spend, their sum
truncated to an integer, the threshold mapping on that integer, then the
new-account constraint. This definition follows the words of the spec and of
claim C1; the refinement theorem compares it with calculate_tier. -/
def spec_tier (days_since total_orders_12m : ℤ) (total_spend_12m : ℚ)
    (account_age_days : ℤ) : CustomerTier :=
  let recency : ℚ := max 0 (40 - (days_since : ℚ) * 40 / 365)
  let frequency : ℚ := min 30 (min 100 (total_orders_12m : ℚ) * 3)
  let monetary : ℚ := max 0 (min 30 (total_spend_12m * (3 / 100)))
  let score : ℤ := pyInt (recency + frequency + monetary)
  let mapped : CustomerTier :=
    if 85 ≤ score then CustomerTier.platinum
    else if 70 ≤ score then CustomerTier.gold
    else if 50 ≤ score then CustomerTier.silver
    else CustomerTier.bronze
  if account_age_days < 30 ∧ mapped ≠ CustomerTier.bronze then CustomerTier.silver
  else mapped

example : calculate_tier ⟨0⟩ ⟨0, 1, 0, 365⟩ = Except.ok CustomerTier.bronze := by with_unfolding_all decide
example : calculate_tier ⟨0⟩ ⟨0, 10, 0, 365⟩ = Except.ok CustomerTier.gold := by with_unfolding_all decide
example : calculate_tier ⟨0⟩ ⟨0, 0, 1000, 365⟩ = Except.ok CustomerTier.gold := by with_unfolding_all decide
example : calculate_tier ⟨0⟩ ⟨0, 30, 1000, 0⟩ = Except.ok CustomerTier.silver := by with_unfolding_all decide
example : calculate_tier ⟨136 * 86400⟩ ⟨0, 10, 1000, 200⟩ =
    Except.ok CustomerTier.platinum := by with_unfolding_all decide

/-! Helper lemmas about the truncation and the three sub-scores. -/

theorem pyInt_of_nonneg {q : ℚ} (h : 0 ≤ q) : pyInt q = ⌊q⌋ := if_pos h

theorem pyInt_mono {q r : ℚ} (h : q ≤ r) : pyInt q ≤ pyInt r := by
  unfold pyInt
  split_ifs with hq hr hr
  · exact Int.floor_mono h
  · exact absurd (hq.trans h) hr
  · exact le_trans (Int.ceil_le.mpr (by simpa using le_of_not_le hq))
      (Int.floor_nonneg.mpr hr)
  · exact Int.ceil_mono h

theorem recency_score_nonneg (d : ℤ) : 0 ≤ recency_score d := le_max_left 0 _

theorem recency_score_le_forty {d : ℤ} (hd : 0 ≤ d) : recency_score d ≤ 40 := by
  unfold recency_score
  have hd' : (0:ℚ) ≤ (d:ℚ) := by exact_mod_cast hd
  have h1 : (0:ℚ) ≤ (d:ℚ) * 40 / 365 := div_nonneg (by linarith) (by norm_num)
  exact max_le (by norm_num) (by linarith)

theorem recency_score_antitone {d1 d2 : ℤ} (h : d1 ≤ d2) :
    recency_score d2 ≤ recency_score d1 := by
  unfold recency_score
  have h' : (d1:ℚ) ≤ (d2:ℚ) := by exact_mod_cast h
  have h2 : (d1:ℚ) * 40 / 365 ≤ (d2:ℚ) * 40 / 365 := by
    apply div_le_div_of_nonneg_right ?_ (by norm_num)
    nlinarith
  exact max_le_max le_rfl (by linarith)

theorem frequency_score_le_thirty (n : ℤ) : frequency_score n ≤ 30 := by
  unfold frequency_score
  exact_mod_cast min_le_left (30:ℤ) (min 100 n * 3)

theorem frequency_score_nonneg {n : ℤ} (hn : 0 ≤ n) : 0 ≤ frequency_score n := by
  unfold frequency_score
  have h1 : (0:ℤ) ≤ min 100 n := le_min (by norm_num) hn
  have h2 : (0:ℤ) ≤ min 30 (min 100 n * 3) :=
    le_min (by norm_num) (mul_nonneg h1 (by norm_num))
  exact_mod_cast h2

theorem monetary_score_nonneg (s : ℚ) : 0 ≤ monetary_score s := le_max_left 0 _

theorem monetary_score_le_thirty (s : ℚ) : monetary_score s ≤ 30 := by
  unfold monetary_score
  exact max_le (by norm_num) (min_le_left _ _)

theorem daysSince_nonneg {ref lp : ℤ} (h : lp ≤ ref) : 0 ≤ daysSince ref lp :=
  Int.fdiv_nonneg (by omega) (by norm_num)

/-- C2: calculate_tier fails with the InvalidInput error if and only if the
reference date is strictly earlier than the last purchase date; on that error
no tier is returned, and in every other case a tier is returned, so this is
the only error condition the engine raises. -/
theorem calculate_tier_error_iff (e : Engine) (c : CustomerActivity) :
    (calculate_tier e c =
        Except.error "Reference date must be after last purchase date" ↔
      e.reference_date < c.last_purchase_date) ∧
    ((∃ t, calculate_tier e c = Except.ok t) ↔
      ¬ e.reference_date < c.last_purchase_date) := by
  unfold calculate_tier apply_constraints
  by_cases h : e.reference_date < c.last_purchase_date
  · rw [if_pos h]
    simp [h]
  · rw [if_neg h]
    constructor
    · split_ifs <;> simp [h]
    · split_ifs <;> simp [h]

/-- C3: for inputs passing date validation, an account younger than 30 days
with a non-Bronze mapped tier is downgraded to Silver, an account of 30 days
or more keeps the mapped tier, and a Bronze mapped tier is never changed. -/
theorem new_account_cap (e : Engine) (c : CustomerActivity)
    (h : c.last_purchase_date ≤ e.reference_date) :
    (c.account_age_days < 30 → raw_tier e c ≠ CustomerTier.bronze →
      calculate_tier e c = Except.ok CustomerTier.silver) ∧
    (30 ≤ c.account_age_days →
      calculate_tier e c = Except.ok (raw_tier e c)) ∧
    (raw_tier e c = CustomerTier.bronze →
      calculate_tier e c = Except.ok (raw_tier e c)) := by
  have hnl : ¬ e.reference_date < c.last_purchase_date := not_lt.mpr h
  unfold calculate_tier apply_constraints
  rw [if_neg hnl]
  refine ⟨fun ha hb => ?_, fun ha => ?_, fun hb => ?_⟩
  · rw [if_pos ⟨ha, hb⟩]
  · rw [if_neg fun hc => absurd hc.1 (not_lt.mpr ha)]
  · rw [if_neg fun hc => hc.2 hb]

/-- Witness for C3 at the concrete input of spec scenario E: orders 30,
spend 1000, account age 0, purchase on the reference date; the raw tier is
Platinum and the constrained result is Silver. -/
theorem new_account_cap_witness :
    calculate_tier ⟨0⟩ ⟨0, 30, 1000, 0⟩ = Except.ok CustomerTier.silver :=
  (new_account_cap ⟨0⟩ ⟨0, 30, 1000, 0⟩ (by decide)).1 (by decide)
    (by with_unfolding_all decide)

/-- C5: with orders 10, spend 1000 and account age 200, the truncated total
score at 136 whole days since purchase is 85 and the tier is Platinum, while
at 137 days the score is 84 and the tier is Gold. -/
theorem platinum_boundary_day_136_vs_137 :
    total_score 136 10 1000 = 85 ∧
    calculate_tier ⟨136 * 86400⟩ ⟨0, 10, 1000, 200⟩ =
      Except.ok CustomerTier.platinum ∧
    total_score 137 10 1000 = 84 ∧
    calculate_tier ⟨137 * 86400⟩ ⟨0, 10, 1000, 200⟩ =
      Except.ok CustomerTier.gold := by
  with_unfolding_all decide

/-- C7: order counts 10 and 150 yield the identical frequency sub-score 30,
and spends 1000 and 5000 yield the identical monetary sub-score 30. -/
theorem saturation_at_caps :
    frequency_score 10 = frequency_score 150 ∧ frequency_score 10 = 30 ∧
    monetary_score 1000 = monetary_score 5000 ∧ monetary_score 1000 = 30 := by
  with_unfolding_all decide

theorem map_score_to_tier_intCast (s : ℤ) :
    map_score_to_tier (s : ℚ) =
      if 85 ≤ s then CustomerTier.platinum
      else if 70 ≤ s then CustomerTier.gold
      else if 50 ≤ s then CustomerTier.silver
      else CustomerTier.bronze := by
  unfold map_score_to_tier
  have h85 : ((85:ℚ) ≤ (s:ℚ)) ↔ (85 ≤ s) := by norm_cast
  have h70 : ((70:ℚ) ≤ (s:ℚ)) ↔ (70 ≤ s) := by norm_cast
  have h50 : ((50:ℚ) ≤ (s:ℚ)) ↔ (50 ≤ s) := by norm_cast
  simp only [h85, h70, h50]

theorem frequency_score_cast (n : ℤ) :
    frequency_score n = min 30 (min 100 (n:ℚ) * 3) := by
  unfold frequency_score
  push_cast
  rfl

/-- C1: for every input with reference_date at or after last_purchase_date,
calculate_tier returns exactly the tier computed by the specification formula
spec_tier on the whole-day difference, the order count, the spend and the
account age. -/
theorem calculate_tier_refines_spec (e : Engine) (c : CustomerActivity)
    (h : c.last_purchase_date ≤ e.reference_date) :
    calculate_tier e c =
      Except.ok (spec_tier (daysSince e.reference_date c.last_purchase_date)
        c.total_orders_12m c.total_spend_12m c.account_age_days) := by
  have hnl : ¬ e.reference_date < c.last_purchase_date := not_lt.mpr h
  unfold calculate_tier apply_constraints raw_tier total_score
  rw [if_neg hnl, map_score_to_tier_intCast, frequency_score_cast]
  unfold recency_score monetary_score
  simp only [spec_tier]
  split_ifs <;> rfl

/-- Witness for C1 at a concrete input: purchase on the reference date,
10 orders, no spend, account age 365. -/
theorem calculate_tier_refines_spec_witness :
    calculate_tier ⟨0⟩ ⟨0, 10, 0, 365⟩ =
      Except.ok (spec_tier (daysSince 0 0) 10 0 365) :=
  calculate_tier_refines_spec ⟨0⟩ ⟨0, 10, 0, 365⟩ (by decide)

/-- C4 counterexample: at total_orders_12m = -1 the frequency sub-score is -3,
outside the range [0, 30] that the claim asserts for every input. -/
theorem sub_score_ranges_counterexample :
    frequency_score (-1) = -3 ∧ ¬ 0 ≤ frequency_score (-1) := by
  with_unfolding_all decide

/-- C4 amended: given reference_date at or after last_purchase_date and a
non-negative order count, each sub-score lies in its stated range, so the sum
is non-negative and int() truncation toward zero equals the floor. -/
theorem sub_score_ranges (ref lp n : ℤ) (s : ℚ)
    (hdate : lp ≤ ref) (hn : 0 ≤ n) :
    (0 ≤ recency_score (daysSince ref lp) ∧
      recency_score (daysSince ref lp) ≤ 40) ∧
    (0 ≤ frequency_score n ∧ frequency_score n ≤ 30) ∧
    (0 ≤ monetary_score s ∧ monetary_score s ≤ 30) ∧
    pyInt (recency_score (daysSince ref lp) + frequency_score n +
        monetary_score s) =
      ⌊recency_score (daysSince ref lp) + frequency_score n +
        monetary_score s⌋ := by
  have hd := daysSince_nonneg hdate
  refine ⟨⟨recency_score_nonneg _, recency_score_le_forty hd⟩,
    ⟨frequency_score_nonneg hn, frequency_score_le_thirty _⟩,
    ⟨monetary_score_nonneg _, monetary_score_le_thirty _⟩, ?_⟩
  have h1 := recency_score_nonneg (daysSince ref lp)
  have h2 := frequency_score_nonneg hn
  have h3 := monetary_score_nonneg s
  exact pyInt_of_nonneg (by linarith)

/-- Witness for the amended C4 at reference date one day after the purchase,
no orders and no spend. -/
theorem sub_score_ranges_witness :
    (0 ≤ recency_score (daysSince 86400 0) ∧
      recency_score (daysSince 86400 0) ≤ 40) ∧
    (0 ≤ frequency_score 0 ∧ frequency_score 0 ≤ 30) ∧
    (0 ≤ monetary_score 0 ∧ monetary_score 0 ≤ 30) ∧
    pyInt (recency_score (daysSince 86400 0) + frequency_score 0 +
        monetary_score 0) =
      ⌊recency_score (daysSince 86400 0) + frequency_score 0 +
        monetary_score 0⌋ :=
  sub_score_ranges 86400 0 0 0 (by decide) (by decide)

/-- C6: with the order count and spend fixed, a smaller whole-day recency
never yields a smaller truncated total score. -/
theorem total_score_antitone_in_days (d1 d2 n : ℤ) (s : ℚ)
    (h1 : 0 ≤ d1) (h12 : d1 ≤ d2) :
    total_score d2 n s ≤ total_score d1 n s := by
  unfold total_score
  apply pyInt_mono
  have := recency_score_antitone h12
  linarith

/-- Witness for C6 at days 136 and 137 with 10 orders and spend 1000. -/
theorem total_score_antitone_in_days_witness :
    total_score 137 10 1000 ≤ total_score 136 10 1000 :=
  total_score_antitone_in_days 136 137 10 1000 (by decide) (by decide)

/-- The single-cap frequency formula min(30, n * 3) named by the spec note on
the redundant intermediate cap. -/
def frequency_score_single_cap (n : ℤ) : ℚ := ((min 30 (n * 3) : ℤ) : ℚ)

/-- C8: the implemented double-cap frequency formula equals the single-cap
formula for every integer order count, and the visible saturation point is
exactly 10 orders: score 30 at 10 orders and 27 at 9 orders. -/
theorem frequency_double_cap_redundant :
    (∀ n : ℤ, frequency_score n = frequency_score_single_cap n) ∧
    frequency_score 10 = 30 ∧ frequency_score 9 = 27 := by
  refine ⟨fun n => ?_, by with_unfolding_all decide, by with_unfolding_all decide⟩
  unfold frequency_score frequency_score_single_cap
  congr 1
  rcases le_total n 100 with h | h
  · rw [min_eq_right h]
  · rw [min_eq_left h, min_eq_left (by linarith : (30:ℤ) ≤ 100 * 3),
      min_eq_left (by linarith : (30:ℤ) ≤ n * 3)]

/-- C9: for a negative order count the frequency sub-score equals 3 times the
count, hence is negative; with purchase on the reference date, spend 1000 and
orders -7 the truncated total score is 49, below 50, and the tier is Bronze
despite maximal recency and monetary sub-scores. -/
theorem frequency_unbounded_below :
    (∀ n : ℤ, n < 0 → frequency_score n = 3 * (n:ℚ) ∧ frequency_score n < 0) ∧
    total_score 0 (-7) 1000 = 49 ∧ total_score 0 (-7) 1000 < 50 ∧
    calculate_tier ⟨0⟩ ⟨0, -7, 1000, 365⟩ = Except.ok CustomerTier.bronze := by
  refine ⟨fun n hn => ?_, by with_unfolding_all decide,
    by with_unfolding_all decide, by with_unfolding_all decide⟩
  unfold frequency_score
  rw [min_eq_right (by linarith : n ≤ (100:ℤ)),
    min_eq_right (by linarith : n * 3 ≤ (30:ℤ))]
  constructor
  · push_cast
    ring
  · have hq : (n:ℚ) < 0 := by exact_mod_cast hn
    push_cast
    nlinarith

/-- Witness for C9 at order count -7. -/
theorem frequency_unbounded_below_witness :
    frequency_score (-7) = 3 * ((-7 : ℤ) : ℚ) ∧
    calculate_tier ⟨0⟩ ⟨0, -7, 1000, 365⟩ = Except.ok CustomerTier.bronze :=
  ⟨(frequency_unbounded_below.1 (-7) (by decide)).1,
    frequency_unbounded_below.2.2.2⟩

/-- C10: for a valid date pair and a non-negative order count, the truncated
total score lies between 0 and 100. -/
theorem total_score_in_range (e : Engine) (c : CustomerActivity)
    (hdate : c.last_purchase_date ≤ e.reference_date)
    (hn : 0 ≤ c.total_orders_12m) :
    0 ≤ total_score (daysSince e.reference_date c.last_purchase_date)
        c.total_orders_12m c.total_spend_12m ∧
    total_score (daysSince e.reference_date c.last_purchase_date)
        c.total_orders_12m c.total_spend_12m ≤ 100 := by
  have hd := daysSince_nonneg hdate
  have r0 := recency_score_nonneg (daysSince e.reference_date c.last_purchase_date)
  have r40 := recency_score_le_forty hd
  have f0 := frequency_score_nonneg hn
  have f30 := frequency_score_le_thirty c.total_orders_12m
  have m0 := monetary_score_nonneg c.total_spend_12m
  have m30 := monetary_score_le_thirty c.total_spend_12m
  unfold total_score
  rw [pyInt_of_nonneg (by linarith)]
  constructor
  · exact Int.floor_nonneg.mpr (by linarith)
  · have h100 : recency_score (daysSince e.reference_date c.last_purchase_date) +
        frequency_score c.total_orders_12m + monetary_score c.total_spend_12m ≤
        ((100:ℤ):ℚ) := by push_cast; linarith
    have := Int.floor_mono h100
    simpa using this

/-- Witness for C10: purchase on the reference date, 10 orders, spend 1000. -/
theorem total_score_in_range_witness :
    0 ≤ total_score (daysSince 0 0) 10 1000 ∧
    total_score (daysSince 0 0) 10 1000 ≤ 100 :=
  total_score_in_range ⟨0⟩ ⟨0, 10, 1000, 365⟩ (by decide) (by decide)

end SegmentationEngine
